import Mathlib

/-!
Shallow embedding of `paddleocrServer.py`, a Flask micro-service wrapping a
batch OCR engine.  Python runtime values that can reach the normalization
helpers are modelled by the inductive type `Value`; a Python exception that a
helper may raise is modelled by `Except String`, the `String` carrying the
exception class name (so `Except.ok` is normal return and `Except.error exc`
is an uncaught exception of class `exc`).
-/

/-- Model of the Python runtime values flowing through the server.

* `none`, `bool`, `int`, `float`, `str`, `list`, `tuple`, `dict` are the
  corresponding Python values; a Python float is modelled exactly by a
  rational number, and dictionary keys of interest are strings.
* `iter xs` is any further well-behaved iterable (a generator, a numpy
  array, ...) whose materialization by `list(...)` yields `xs`.
* `iterRaising exc` is an iterable whose materialization by `list(...)`
  raises an exception of class `exc` part-way through iteration.
* `obj attrs dyn` is an opaque engine result object: `attrs` are the
  attributes reachable through `getattr`/`hasattr`, and `dyn` is the
  content of its `__dict__` introspection store (`Option.none` when the
  object exposes no `__dict__`). The two stores are kept independent
  because the source probes them independently. -/
inductive Value where
  | none
  | bool (b : Bool)
  | int (n : Int)
  | float (q : ℚ)
  | str (s : String)
  | list (xs : List Value)
  | tuple (xs : List Value)
  | dict (entries : List (String × Value))
  | iter (xs : List Value)
  | iterRaising (exc : String)
  | obj (attrs : List (String × Value)) (dyn : Option (List (String × Value)))

/-- First-match lookup in an association list, modelling `d[k]` / `d.get(k)`
on a Python dict with string keys (keys are unique in a real dict, so taking
the first match is exact). -/
def lookupStr : List (String × Value) → String → Option Value
  | [], _ => Option.none
  | (k, v) :: rest, f => if k = f then some v else lookupStr rest f

/-- Model of `_coerce_iterable` (paddleocrServer.py lines 23-37).

The Python body is: `None` returns `[]`; a `list` or `tuple` is copied by
`list(value)`; otherwise `list(value)` is attempted under
`except TypeError: return []`.  `list(...)` on a string yields its
characters as one-character strings, on a dict its keys, on another
iterable its elements; on a non-iterable (number, bool, plain object) it
raises `TypeError`, which is caught.  An exception raised part-way through
iterating an iterable is caught only when its class is `TypeError`;
anything else propagates, which the model records as `Except.error`. -/
def _coerce_iterable (value : Value) : Except String (List Value) :=
  match value with
  | .none => .ok []
  | .list xs => .ok xs
  | .tuple xs => .ok xs
  | .str s => .ok (s.data.map (fun c => Value.str (String.mk [c])))
  | .dict entries => .ok (entries.map (fun e => Value.str e.1))
  | .iter xs => .ok xs
  | .iterRaising exc => if exc = "TypeError" then .ok [] else .error exc
  | .bool _ => .ok []
  | .int _ => .ok []
  | .float _ => .ok []
  | .obj _ _ => .ok []

/-- Values on which `list(value)` raises `TypeError` because the value is
not iterable at all (numbers, booleans, plain engine objects). -/
def nonIterable : Value → Bool
  | .bool _ => true
  | .int _ => true
  | .float _ => true
  | .obj _ _ => true
  | _ => false

/-- Observation of the probe `isinstance(prediction, dict) and
field_name in prediction` followed by `prediction.get(field_name)`
(paddleocrServer.py line 48-49). -/
def dictKey : Value → String → Option Value
  | .dict es, f => lookupStr es f
  | _, _ => Option.none

/-- Observation of the probes `hasattr(prediction, field_name)` /
`getattr(prediction, field_name)` (paddleocrServer.py lines 51-52).  Only
opaque engine objects expose named data attributes; the built-in container
and scalar shapes expose no data attribute matching an extracted field
name. -/
def getattrV : Value → String → Option Value
  | .obj attrs _, name => lookupStr attrs name
  | _, _ => Option.none

/-- Observation of `json_res = getattr(prediction, "json_res", None)`
followed by `isinstance(json_res, dict) and field_name in json_res`
(paddleocrServer.py lines 54-56): `some v` exactly when the `json_res`
attribute exists, is a dict, and holds the field. -/
def jsonResKey (r : Value) (f : String) : Option Value :=
  match getattrV r "json_res" with
  | some j => dictKey j f
  | Option.none => Option.none

/-- Observation of `payload = getattr(prediction, "__dict__", None)`
followed by `isinstance(payload, dict) and field_name in payload`
(paddleocrServer.py lines 58-60). -/
def dynKey : Value → String → Option Value
  | .obj _ (some dyn), f => lookupStr dyn f
  | _, _ => Option.none

/-- Model of `_extract_list_field` (paddleocrServer.py lines 40-62): the
four shape probes are tried in the source order, the first hit is coerced
with `_coerce_iterable`, and a miss on every probe returns the empty
list. -/
def _extract_list_field (prediction : Value) (field_name : String) :
    Except String (List Value) :=
  match prediction with
  | .none => .ok []
  | p =>
    match dictKey p field_name with
    | some v => _coerce_iterable v
    | Option.none =>
      match getattrV p field_name with
      | some v => _coerce_iterable v
      | Option.none =>
        match jsonResKey p field_name with
        | some v => _coerce_iterable v
        | Option.none =>
          match dynKey p field_name with
          | some v => _coerce_iterable v
          | Option.none => .ok []

/-- Reads a run of decimal digits off the front of a character list,
returning their values and the rest of the input. -/
def takeDigits : List Char → List ℕ × List Char
  | [] => ([], [])
  | c :: cs =>
    if c.isDigit then
      let r := takeDigits cs
      ((c.toNat - 48) :: r.1, r.2)
    else ([], c :: cs)

/-- Value of a digit run read most-significant first. -/
def natOfDigits (ds : List ℕ) : ℕ := ds.foldl (fun a d => 10 * a + d) 0

/-- Optional leading sign; `true` means negative. -/
def parseSign : List Char → Bool × List Char
  | '-' :: cs => (true, cs)
  | '+' :: cs => (false, cs)
  | cs => (false, cs)

/-- Exponent tail after the `e`/`E` marker: optional sign then at least one
digit, consuming the whole rest of the input. -/
def parseExpTail (cs : List Char) : Option (Bool × ℕ) :=
  let sc := parseSign cs
  let dr := takeDigits sc.2
  if dr.1.isEmpty ∨ ¬ dr.2.isEmpty then Option.none
  else some (sc.1, natOfDigits dr.1)

/-- Optional exponent part: empty input means exponent `0`; otherwise an
`e`/`E` marker followed by a signed digit run; anything else fails. -/
def parseExpPart : List Char → Option (Bool × ℕ)
  | [] => some (false, 0)
  | 'e' :: cs => parseExpTail cs
  | 'E' :: cs => parseExpTail cs
  | _ => Option.none

/-- Core of the decimal grammar accepted by Python `float(string)`:
optional sign, digits with an optional fractional part (at least one digit
overall), and an optional exponent.  The resulting exact rational is
`sign * mantissa * 10 ^ exponent`, assembled with `mkRat` over integer
arithmetic.  The special spellings `inf`/`nan` and digit-group underscores
are outside the model. -/
def parseFloatCore (cs : List Char) : Option ℚ :=
  let sc := parseSign cs
  let ir := takeDigits sc.2
  let fr : Option (List ℕ × List Char) :=
    match ir.2 with
    | '.' :: rest => some (takeDigits rest)
    | _ => Option.none
  let fracDigits : List ℕ := ((fr.map (fun p => p.1)).getD [])
  let mantDigits : List ℕ := ir.1 ++ fracDigits
  let afterMant : List Char := (fr.map (fun p => p.2)).getD ir.2
  if mantDigits.isEmpty then Option.none
  else
    match parseExpPart afterMant with
    | Option.none => Option.none
    | some (eneg, e) =>
      let m : ℤ := (natOfDigits mantDigits : ℤ)
      let msigned : ℤ := if sc.1 then -m else m
      some (if eneg then mkRat msigned (10 ^ (fracDigits.length + e))
            else mkRat (msigned * (10 : ℤ) ^ e) (10 ^ fracDigits.length))

/-- Characters stripped from both ends by Python `str.strip()` with no
argument, restricted to the whitespace characters `Char.isWhitespace`
recognizes. -/
def stripChars (cs : List Char) : List Char :=
  ((cs.dropWhile Char.isWhitespace).reverse.dropWhile Char.isWhitespace).reverse

/-- Python `s.strip()`: surrounding whitespace removed from both ends. -/
def pyStrip (s : String) : String := String.mk (stripChars s.data)

/-- Python `float(s)` on a string: surrounding whitespace is stripped, then
the decimal grammar is applied; failure models `ValueError`. -/
def parsePyFloat (s : String) : Option ℚ := parseFloatCore (pyStrip s).data

/-- Python `float(x)` as used on an orientation angle entry
(paddleocrServer.py line 84), with `Option.none` standing for the
`TypeError`/`ValueError` cases that the source catches: numbers and
booleans convert, strings are parsed, every other shape fails. -/
def pyFloat : Value → Option ℚ
  | .bool b => some (if b then 1 else 0)
  | .int n => some (mkRat n 1)
  | .float q => some q
  | .str s => parsePyFloat s
  | _ => Option.none

/-- The string-typed entries of a raw extraction, in order: models the list
comprehension filter `if isinstance(text, str)` (paddleocrServer.py
lines 70-72). -/
def strOnly : List Value → List String
  | [] => []
  | .str s :: rest => s :: strOnly rest
  | _ :: rest => strOnly rest

/-- Model of the filtering loop of `_extract_rec_texts`
(paddleocrServer.py lines 80-93): for each text at running index `idx`,
`angles[idx]` is read when in range (else `None`), converted with
`float(...)` under the source try/except, and the text is skipped exactly
when the converted value compares equal to `1.0`. -/
def filterAngles (angles : List Value) : ℕ → List String → List String
  | _, [] => []
  | idx, text :: rest =>
    let angle_value : Option ℚ := (angles[idx]?).bind pyFloat
    if angle_value = some 1 then filterAngles angles (idx + 1) rest
    else text :: filterAngles angles (idx + 1) rest

/-- Model of `_extract_rec_texts` (paddleocrServer.py lines 65-93): extract
`rec_texts` keeping only strings, return early when that is empty, extract
the orientation angles, return the texts unchanged when the angles are
empty, otherwise run the index-aligned filter.  An exception escaping
either extraction propagates. -/
def _extract_rec_texts (prediction : Value) : Except String (List String) :=
  match _extract_list_field prediction "rec_texts" with
  | .error exc => .error exc
  | .ok raw =>
    let rec_texts := strOnly raw
    if rec_texts.isEmpty then .ok []
    else
      match _extract_list_field prediction "textline_orientation_angles" with
      | .error exc => .error exc
      | .ok angles =>
        if angles.isEmpty then .ok rec_texts
        else .ok (filterAngles angles 0 rec_texts)

/-- Python truthiness, as used by `request.get_json(silent=True) or {}`
(paddleocrServer.py line 98). -/
def pyTruthy : Value → Bool
  | .none => false
  | .bool b => b
  | .int n => n != 0
  | .float q => q != 0
  | .str s => s != ""
  | .list xs => !xs.isEmpty
  | .tuple xs => !xs.isEmpty
  | .dict es => !es.isEmpty
  | .iter _ => true
  | .iterRaising _ => true
  | .obj _ _ => true

/-- Decimal-style rendering of an exact rational, standing in for the text
Python produces for a float. -/
def ratRepr (q : ℚ) : String :=
  if q.den = 1 then toString q.num
  else toString q.num ++ "/" ++ toString q.den

/-- Python `str(url)` as applied to a requested input
(paddleocrServer.py line 106).  Strings pass through unchanged and scalars
render canonically; the textual representations of containers and objects
are abstracted to fixed non-blank placeholders, since only the string
itself (for string inputs) and blankness after stripping matter
downstream. -/
def pyStr : Value → String
  | .str s => s
  | .none => "None"
  | .bool b => if b then "True" else "False"
  | .int n => toString n
  | .float q => ratRepr q
  | .list _ => "<list>"
  | .tuple _ => "<tuple>"
  | .dict _ => "<dict>"
  | .iter _ => "<iterator>"
  | .iterRaising _ => "<iterator>"
  | .obj _ _ => "<object>"

/-- Model of the cleaning comprehension
`[str(url).strip() for url in urls if str(url).strip()]`
(paddleocrServer.py line 106): every entry is string-coerced and stripped,
and entries that are blank after stripping are dropped. -/
def cleanedUrls (us : List Value) : List String :=
  us.filterMap (fun u =>
    let s := pyStrip (pyStr u)
    if s = "" then Option.none else some s)

/-- Model of `payload = request.get_json(silent=True) or {}`
(paddleocrServer.py line 98): `body` is the parsed request JSON
(`Option.none` when the body is missing or unparseable), and a falsy or
missing payload is replaced by the empty dict. -/
def payloadOf (body : Option Value) : Value :=
  match body with
  | Option.none => Value.dict []
  | some v => if pyTruthy v then v else Value.dict []

/-- Model of `urls = payload.get("urls", [])` (paddleocrServer.py
line 99): defined when the payload is a dict (with the empty-list
default), and undefined — a raised `AttributeError` — otherwise. -/
def urlsField (body : Option Value) : Option Value :=
  match payloadOf body with
  | .dict entries => some ((lookupStr entries "urls").getD (Value.list []))
  | _ => Option.none

/-- The three response shapes the handler can produce: an HTTP 400 with a
detail message, an HTTP 500 with a detail message, and an HTTP 200 whose
body is the list of `(input_path, rec_texts)` records in request order. -/
inductive OcrResponse where
  | clientError (detail : String)
  | serverError (detail : String)
  | ok (records : List (String × List String))
deriving DecidableEq

/-- Model of the response-building loop (paddleocrServer.py
lines 126-129): one `(input_path, rec_texts)` record per `(url,
prediction)` pair, in order; an exception escaping `_extract_rec_texts`
aborts the loop and propagates. -/
def buildRecords : List (String × Value) → Except String (List (String × List String))
  | [] => .ok []
  | (url, prediction) :: rest =>
    match _extract_rec_texts prediction with
    | .error exc => .error exc
    | .ok texts =>
      match buildRecords rest with
      | .error exc => .error exc
      | .ok records => .ok ((url, texts) :: records)

/-- Model of the body of `run_ocr` from the `urls` value on
(paddleocrServer.py lines 100-131): reject a non-list `urls` with 400,
clean the entries, reject an empty cleaned list with 400, call the engine
(any exception becomes a 500), reject a count mismatch with 500, and
otherwise build the record list (an exception escaping extraction
surfaces as an unhandled 500). -/
def run_ocr_core (predict : List String → Except String (List Value))
    (urls : Value) : OcrResponse :=
  match urls with
  | .list us =>
    if (cleanedUrls us).isEmpty then .clientError "The urls list must not be empty."
    else
      match predict (cleanedUrls us) with
      | .error exc => .serverError ("OCR failed: " ++ exc)
      | .ok predictions =>
        if predictions.length ≠ (cleanedUrls us).length then
          .serverError "Mismatch between predictions and requested URLs."
        else
          match buildRecords ((cleanedUrls us).zip predictions) with
          | .error exc => .serverError ("Unhandled exception: " ++ exc)
          | .ok records => .ok records
  | _ => .clientError "The urls field must be a JSON array of strings."

/-- Model of the `/ocr` handler `run_ocr` (paddleocrServer.py
lines 96-131), parameterized by the engine batch call `predict` (the
model of `ocr.predict`, which may raise).  A non-dict truthy payload makes
`payload.get` raise `AttributeError`, which Flask surfaces as a 500. -/
def run_ocr (predict : List String → Except String (List Value))
    (body : Option Value) : OcrResponse :=
  match urlsField body with
  | some urls => run_ocr_core predict urls
  | Option.none => .serverError "AttributeError: payload has no attribute get"

/-! ## Claim-side specification definitions -/

/-- Spec-side description of the pre-filter step of the Text Filter: the
string-typed entries of a raw extraction, in their original order. -/
def stringEntries (raw : List Value) : List String :=
  raw.filterMap (fun v =>
    match v with
    | Value.str s => some s
    | _ => Option.none)

/-- Spec-side description of the per-index keep decision of the Text
Filter: a text at index `i` is kept when `i` is beyond the end of the
angle list, or the angle there is absent or fails numeric parse, or its
parsed value differs from `1.0`; it is dropped exactly when the angle
parses to exactly `1.0`. -/
def keptSpec (angles : List Value) (i : ℕ) : Bool :=
  match angles[i]? with
  | Option.none => true
  | some a =>
    match pyFloat a with
    | Option.none => true
    | some q => decide (q ≠ 1)

/-- Spec-side validity predicate on the `urls` field: a non-empty array
whose entries are all strings that are non-blank after stripping. -/
def SpecValidUrls (v : Value) : Prop :=
  ∃ us, v = Value.list us ∧ us ≠ [] ∧
    ∀ u ∈ us, ∃ s, u = Value.str s ∧ pyStrip s ≠ ""

/-! ## Helper lemmas -/

/-- The source list comprehension filter and the spec-side description of
the string filter agree on every raw extraction. -/
theorem strOnly_eq_stringEntries (raw : List Value) : strOnly raw = stringEntries raw := by
  induction raw with
  | nil => rfl
  | cons v rest ih => cases v <;> simp [strOnly, stringEntries, List.filterMap_cons] at ih ⊢ <;>
      exact ih

/-! ## Claims -/

/-- C9: `_coerce_iterable` is idempotent on values already in sequence
form: every list is returned unchanged (an order-preserving copy), and
re-coercing the result of any successful coercion returns it unchanged,
so the Kleisli composition of the coercion with itself is the coercion. -/
theorem coerce_iterable_idempotent :
    (∀ xs : List Value, _coerce_iterable (Value.list xs) = Except.ok xs) ∧
    (∀ v : Value,
      (_coerce_iterable v).bind (fun ys => _coerce_iterable (Value.list ys)) =
        _coerce_iterable v) := by
  refine ⟨fun xs => rfl, fun v => ?_⟩
  cases v <;> first
    | rfl
    | (rename_i exc
       by_cases h : exc = "TypeError" <;> simp [_coerce_iterable, Except.bind, h])

/-- C10: when the value found for a field is itself a string, coercion
returns the list of its one-character strings — not a one-element list
holding the whole string — so the same holds for `_extract_list_field`,
and every entry survives the string filter of `_extract_rec_texts` and
becomes a separate text entry. -/
theorem coerce_str_splits_chars :
    (∀ s : String, _coerce_iterable (Value.str s) =
      Except.ok (s.data.map (fun c => Value.str (String.mk [c])))) ∧
    (∀ es f s, lookupStr es f = some (Value.str s) →
      _extract_list_field (Value.dict es) f =
        Except.ok (s.data.map (fun c => Value.str (String.mk [c])))) ∧
    (∀ s : String, strOnly (s.data.map (fun c => Value.str (String.mk [c]))) =
      s.data.map (fun c => String.mk [c])) ∧
    _extract_rec_texts (Value.dict [("rec_texts", Value.str "abc")]) =
      Except.ok ["a", "b", "c"] := by
  have hchars : ∀ cs : List Char,
      strOnly (cs.map (fun c => Value.str (String.mk [c]))) =
        cs.map (fun c => String.mk [c]) := by
    intro cs
    induction cs with
    | nil => rfl
    | cons c rest ih => simp [strOnly, ih]
  refine ⟨fun s => rfl, ?_, fun s => hchars s.data, by rfl⟩
  intro es f s h
  simp [_extract_list_field, dictKey, h, _coerce_iterable]

/-- C10 witness: a concrete dict whose `rec_texts` field is the scalar
string `ab`. -/
theorem coerce_str_splits_chars_witness :
    lookupStr [("rec_texts", Value.str "ab")] "rec_texts" = some (Value.str "ab") ∧
    _extract_list_field (Value.dict [("rec_texts", Value.str "ab")]) "rec_texts" =
      Except.ok [Value.str "a", Value.str "b"] :=
  ⟨rfl, coerce_str_splits_chars.2.1 [("rec_texts", Value.str "ab")] "rec_texts" "ab" rfl⟩

/-- C3 counterexample: `_coerce_iterable` is not exception-free on every
input.  The source catches only `TypeError`, so an iterable whose
materialization raises, say, `ValueError` propagates that exception. -/
theorem coerce_iterable_raises_cex :
    _coerce_iterable (Value.iterRaising "ValueError") = Except.error "ValueError" ∧
    ¬ ∀ v : Value, ∃ ys, _coerce_iterable v = Except.ok ys := by
  refine ⟨rfl, fun h => ?_⟩
  obtain ⟨ys, hys⟩ := h (Value.iterRaising "ValueError")
  rw [(rfl : _coerce_iterable (Value.iterRaising "ValueError") = Except.error "ValueError")]
    at hys
  cases hys

/-- C3 amended: `_coerce_iterable` is total and never raises for `None`
(empty list), lists and tuples (copied as-is), well-behaved iterables
(materialized by one forward pass), non-iterable values (empty list), and
a `TypeError` raised during materialization (empty list); but an
exception of any other class raised during iteration propagates. -/
theorem coerce_iterable_total_behavior :
    _coerce_iterable Value.none = Except.ok [] ∧
    (∀ xs, _coerce_iterable (Value.list xs) = Except.ok xs) ∧
    (∀ xs, _coerce_iterable (Value.tuple xs) = Except.ok xs) ∧
    (∀ xs, _coerce_iterable (Value.iter xs) = Except.ok xs) ∧
    (∀ v, nonIterable v = true → _coerce_iterable v = Except.ok []) ∧
    _coerce_iterable (Value.iterRaising "TypeError") = Except.ok [] ∧
    (∀ exc, exc ≠ "TypeError" →
      _coerce_iterable (Value.iterRaising exc) = Except.error exc) := by
  refine ⟨rfl, fun xs => rfl, fun xs => rfl, fun xs => rfl, ?_, by rfl, ?_⟩
  · intro v hv
    cases v <;> simp [nonIterable] at hv <;> rfl
  · intro exc h
    simp [_coerce_iterable, h]

/-- C3 witness: a concrete non-iterable scalar and a concrete non-TypeError
iteration failure. -/
theorem coerce_iterable_total_behavior_witness :
    nonIterable (Value.int 5) = true ∧
    _coerce_iterable (Value.int 5) = Except.ok [] ∧
    "ValueError" ≠ "TypeError" ∧
    _coerce_iterable (Value.iterRaising "ValueError") = Except.error "ValueError" :=
  ⟨rfl, coerce_iterable_total_behavior.2.2.2.2.1 (Value.int 5) rfl, by decide,
    coerce_iterable_total_behavior.2.2.2.2.2.2 "ValueError" (by decide)⟩

/-- C2: `_extract_list_field` follows the fixed first-match-wins
precedence with no merging across shapes: a `None` result yields the
empty list; else a mapping key, else a named attribute, else an entry of
the nested `json_res` mapping, else an entry of the `__dict__` store, each
coerced to a list; and when every probe misses — in particular for any
absent field, on every shape — the result is the empty list. -/
theorem extract_list_field_precedence :
    (∀ f, _extract_list_field Value.none f = Except.ok []) ∧
    (∀ es f v, lookupStr es f = some v →
      _extract_list_field (Value.dict es) f = _coerce_iterable v) ∧
    (∀ r f v, dictKey r f = Option.none → getattrV r f = some v →
      _extract_list_field r f = _coerce_iterable v) ∧
    (∀ r f v, dictKey r f = Option.none → getattrV r f = Option.none →
      jsonResKey r f = some v → _extract_list_field r f = _coerce_iterable v) ∧
    (∀ r f v, dictKey r f = Option.none → getattrV r f = Option.none →
      jsonResKey r f = Option.none → dynKey r f = some v →
      _extract_list_field r f = _coerce_iterable v) ∧
    (∀ r f, dictKey r f = Option.none → getattrV r f = Option.none →
      jsonResKey r f = Option.none → dynKey r f = Option.none →
      _extract_list_field r f = Except.ok []) := by
  refine ⟨fun f => rfl, ?_, ?_, ?_, ?_, ?_⟩
  · intro es f v h
    simp [_extract_list_field, dictKey, h]
  · intro r f v h1 h2
    cases r <;> simp_all [_extract_list_field, dictKey, getattrV]
  · intro r f v h1 h2 h3
    cases r <;> simp_all [_extract_list_field, dictKey, getattrV, jsonResKey]
  · intro r f v h1 h2 h3 h4
    cases r <;> simp_all [_extract_list_field, dictKey, getattrV, jsonResKey, dynKey]
  · intro r f h1 h2 h3 h4
    cases r <;> simp_all [_extract_list_field, dictKey, getattrV, jsonResKey, dynKey]

/-- C2 witness: the `json_res` probe fires on a concrete wrapper object on
which the two earlier probes miss. -/
theorem extract_list_field_precedence_witness :
    dictKey (Value.obj [("json_res", Value.dict [("rec_texts", Value.list [Value.str "x"])])]
      Option.none) "rec_texts" = Option.none ∧
    getattrV (Value.obj [("json_res", Value.dict [("rec_texts", Value.list [Value.str "x"])])]
      Option.none) "rec_texts" = Option.none ∧
    jsonResKey (Value.obj [("json_res", Value.dict [("rec_texts", Value.list [Value.str "x"])])]
      Option.none) "rec_texts" = some (Value.list [Value.str "x"]) ∧
    _extract_list_field
      (Value.obj [("json_res", Value.dict [("rec_texts", Value.list [Value.str "x"])])]
        Option.none) "rec_texts" = _coerce_iterable (Value.list [Value.str "x"]) :=
  ⟨rfl, rfl, rfl,
    extract_list_field_precedence.2.2.2.1
      (Value.obj [("json_res", Value.dict [("rec_texts", Value.list [Value.str "x"])])]
        Option.none)
      "rec_texts" (Value.list [Value.str "x"]) rfl rfl rfl⟩

/-- C6: for the four supported result shapes — plain mapping, attribute
object, nested `json_res` wrapper, and `__dict__` fallback store — holding
the same field value, `_extract_list_field` returns the same coerced
sequence (for any field name other than the reserved wrapper key
`json_res` itself). -/
theorem extract_shape_agreement (f : String) (v : Value) (hf : f ≠ "json_res") :
    _extract_list_field (Value.dict [(f, v)]) f = _coerce_iterable v ∧
    _extract_list_field (Value.obj [(f, v)] Option.none) f = _coerce_iterable v ∧
    _extract_list_field (Value.obj [("json_res", Value.dict [(f, v)])] Option.none) f =
      _coerce_iterable v ∧
    _extract_list_field (Value.obj [] (some [(f, v)])) f = _coerce_iterable v := by
  refine ⟨?_, ?_, ?_, ?_⟩
  · simp [_extract_list_field, dictKey, lookupStr]
  · simp [_extract_list_field, dictKey, getattrV, lookupStr]
  · simp [_extract_list_field, dictKey, getattrV, jsonResKey, lookupStr, Ne.symm hf]
  · simp [_extract_list_field, dictKey, getattrV, jsonResKey, dynKey, lookupStr]

/-- C6 witness: the four shapes at the concrete field `rec_texts` and a
concrete value. -/
theorem extract_shape_agreement_witness :
    ("rec_texts" : String) ≠ "json_res" ∧
    (_extract_list_field (Value.dict [("rec_texts", Value.list [Value.str "x", Value.int 3])])
        "rec_texts" = _coerce_iterable (Value.list [Value.str "x", Value.int 3]) ∧
      _extract_list_field (Value.obj [("rec_texts", Value.list [Value.str "x", Value.int 3])]
        Option.none) "rec_texts" = _coerce_iterable (Value.list [Value.str "x", Value.int 3]) ∧
      _extract_list_field (Value.obj [("json_res",
        Value.dict [("rec_texts", Value.list [Value.str "x", Value.int 3])])] Option.none)
        "rec_texts" = _coerce_iterable (Value.list [Value.str "x", Value.int 3]) ∧
      _extract_list_field (Value.obj []
        (some [("rec_texts", Value.list [Value.str "x", Value.int 3])])) "rec_texts" =
        _coerce_iterable (Value.list [Value.str "x", Value.int 3])) :=
  ⟨by decide,
    extract_shape_agreement "rec_texts" (Value.list [Value.str "x", Value.int 3]) (by decide)⟩

/-- C7: when the extracted string texts are empty, `_extract_rec_texts`
returns the empty sequence immediately, regardless of any angle data; and
when the texts are non-empty but the extracted angle list is empty, the
texts are returned unchanged with no filtering applied. -/
theorem extract_rec_texts_empty_cases :
    (∀ p raw, _extract_list_field p "rec_texts" = Except.ok raw → strOnly raw = [] →
      _extract_rec_texts p = Except.ok []) ∧
    (∀ p raw, _extract_list_field p "rec_texts" = Except.ok raw → strOnly raw ≠ [] →
      _extract_list_field p "textline_orientation_angles" = Except.ok [] →
      _extract_rec_texts p = Except.ok (strOnly raw)) := by
  constructor
  · intro p raw h1 h2
    simp [_extract_rec_texts, h1, h2]
  · intro p raw h1 h2 h3
    simp [_extract_rec_texts, h1, h2, h3]

/-- C7 witness: a result with no string texts (but angle data present) and
a result with texts but no angle data. -/
theorem extract_rec_texts_empty_cases_witness :
    (_extract_list_field (Value.dict [("rec_texts", Value.list [Value.int 1]),
        ("textline_orientation_angles", Value.list [Value.float 1])]) "rec_texts" =
      Except.ok [Value.int 1] ∧
      strOnly [Value.int 1] = [] ∧
      _extract_rec_texts (Value.dict [("rec_texts", Value.list [Value.int 1]),
        ("textline_orientation_angles", Value.list [Value.float 1])]) = Except.ok []) ∧
    (strOnly [Value.str "a"] ≠ [] ∧
      _extract_rec_texts (Value.dict [("rec_texts", Value.list [Value.str "a"])]) =
        Except.ok (strOnly [Value.str "a"])) :=
  ⟨⟨rfl, rfl,
      extract_rec_texts_empty_cases.1
        (Value.dict [("rec_texts", Value.list [Value.int 1]),
          ("textline_orientation_angles", Value.list [Value.float 1])]) [Value.int 1] rfl rfl⟩,
    by decide,
    extract_rec_texts_empty_cases.2
      (Value.dict [("rec_texts", Value.list [Value.str "a"])]) [Value.str "a"] rfl
      (by decide) rfl⟩

/-- C8: non-string entries of the raw `rec_texts` extraction are dropped
silently before any orientation filtering — the text list handed to the
filter is exactly the string-typed entries in their original order, so
the output of `_extract_rec_texts` depends on the raw extraction only
through those entries, and a raw extraction `a, 7, b` is treated as
`a, b`. -/
theorem extract_rec_texts_string_filter :
    (∀ raw, strOnly raw = stringEntries raw) ∧
    (∀ p q rawp rawq,
      _extract_list_field p "rec_texts" = Except.ok rawp →
      _extract_list_field q "rec_texts" = Except.ok rawq →
      stringEntries rawp = stringEntries rawq →
      _extract_list_field p "textline_orientation_angles" =
        _extract_list_field q "textline_orientation_angles" →
      _extract_rec_texts p = _extract_rec_texts q) ∧
    _extract_rec_texts (Value.dict [("rec_texts",
      Value.list [Value.str "a", Value.int 7, Value.str "b"])]) = Except.ok ["a", "b"] := by
  refine ⟨strOnly_eq_stringEntries, ?_, by rfl⟩
  intro p q rawp rawq hp hq hs ha
  have h1 : strOnly rawp = strOnly rawq := by
    rw [strOnly_eq_stringEntries, strOnly_eq_stringEntries, hs]
  simp [_extract_rec_texts, hp, hq, h1, ha]

/-- C8 witness: two concrete results whose raw `rec_texts` differ only by
a non-string entry produce the same output. -/
theorem extract_rec_texts_string_filter_witness :
    stringEntries [Value.str "a", Value.int 7, Value.str "b"] =
      stringEntries [Value.str "a", Value.str "b"] ∧
    _extract_rec_texts
        (Value.dict [("rec_texts", Value.list [Value.str "a", Value.int 7, Value.str "b"])]) =
      _extract_rec_texts
        (Value.dict [("rec_texts", Value.list [Value.str "a", Value.str "b"])]) :=
  ⟨rfl,
    extract_rec_texts_string_filter.2.1
      (Value.dict [("rec_texts", Value.list [Value.str "a", Value.int 7, Value.str "b"])])
      (Value.dict [("rec_texts", Value.list [Value.str "a", Value.str "b"])])
      [Value.str "a", Value.int 7, Value.str "b"] [Value.str "a", Value.str "b"]
      rfl rfl rfl rfl⟩

/-- The spec-side keep decision at index `i` is the negation of the source
comparison `angle_value == 1.0` at index `i`. -/
theorem keptSpec_eq_not_one (angles : List Value) (i : ℕ) :
    keptSpec angles i = !decide ((angles[i]?).bind pyFloat = some 1) := by
  unfold keptSpec
  cases h : angles[i]? with
  | none => simp
  | some a =>
    cases hq : pyFloat a with
    | none => simp [hq]
    | some q => simp [hq, decide_not]

/-- The filtering loop computes, from any starting index, the spec-side
filter over the index-decorated text list. -/
theorem filterAngles_eq_enumFrom (angles : List Value) :
    ∀ (ts : List String) (i : ℕ),
      filterAngles angles i ts =
        ((ts.enumFrom i).filter (fun q => keptSpec angles q.1)).map Prod.snd := by
  intro ts
  induction ts with
  | nil => intro i; rfl
  | cons t rest ih =>
    intro i
    by_cases h : (angles[i]?).bind pyFloat = some 1
    · simp [filterAngles, h, List.enumFrom_cons, List.filter_cons, keptSpec_eq_not_one, ih]
    · simp [filterAngles, h, List.enumFrom_cons, List.filter_cons, keptSpec_eq_not_one, ih]

/-- The filtering loop never consults an angle at an index at or beyond
`i + ts.length`, so truncating the angle list there changes nothing:
extra angles past the end of the text list are ignored. -/
theorem filterAngles_take (angles : List Value) :
    ∀ (ts : List String) (i : ℕ),
      filterAngles angles i ts = filterAngles (angles.take (i + ts.length)) i ts := by
  intro ts
  induction ts with
  | nil => intro i; rfl
  | cons t rest ih =>
    intro i
    have hlt : i < i + (t :: rest).length := by simp
    have harith : i + (t :: rest).length = (i + 1) + rest.length := by
      simp [List.length_cons]
      omega
    simp only [filterAngles, List.getElem?_take_of_lt hlt]
    rw [harith]
    by_cases h : (angles[i]?).bind pyFloat = some 1 <;> simp [h, ih (i + 1)]

/-- C1: for every recognition result with non-empty extracted string texts
and a non-empty extracted angle list, `_extract_rec_texts` keeps exactly
the texts whose index passes `keptSpec` — kept when the index is beyond
the end of the angle list, or the angle there is absent or fails numeric
parse, or parses to a value other than `1.0`; excluded exactly when it
parses to exactly `1.0` — with survivors in their original relative
order, and with angles past the end of the text list ignored (truncating
the angle list at the text count changes nothing). -/
theorem extract_rec_texts_keep_iff (p : Value) (raw angles : List Value)
    (hraw : _extract_list_field p "rec_texts" = Except.ok raw)
    (ht : strOnly raw ≠ [])
    (hang : _extract_list_field p "textline_orientation_angles" = Except.ok angles)
    (ha : angles ≠ []) :
    _extract_rec_texts p =
      Except.ok ((((strOnly raw).enum).filter (fun q => keptSpec angles q.1)).map Prod.snd) ∧
    _extract_rec_texts p =
      Except.ok ((((strOnly raw).enum).filter
        (fun q => keptSpec (angles.take (strOnly raw).length) q.1)).map Prod.snd) := by
  have hmain : _extract_rec_texts p = Except.ok (filterAngles angles 0 (strOnly raw)) := by
    simp [_extract_rec_texts, hraw, hang, ht, ha]
  constructor
  · rw [hmain, filterAngles_eq_enumFrom]
    rfl
  · rw [hmain, filterAngles_take angles (strOnly raw) 0, filterAngles_eq_enumFrom]
    simp [List.enum, Nat.zero_add]

/-- Concrete recognition result for the C1 witness: five texts against six
angles — an exact `1.0` float, a string parsing to `1.0`, an unparseable
string, a non-`1` integer, the integer `1`, and one extra angle past the
end of the text list. -/
def sampleKeep : Value :=
  Value.dict [("rec_texts", Value.list [Value.str "t0", Value.str "t1", Value.str "t2",
      Value.str "t3", Value.str "t4"]),
    ("textline_orientation_angles", Value.list [Value.float 1, Value.str "1.0",
      Value.str "abc", Value.int 0, Value.int 1, Value.float 7])]

/-- C1 witness: the characterization applied to `sampleKeep`. -/
theorem extract_rec_texts_keep_iff_witness :
    _extract_list_field sampleKeep "rec_texts" =
      Except.ok [Value.str "t0", Value.str "t1", Value.str "t2", Value.str "t3",
        Value.str "t4"] ∧
    strOnly [Value.str "t0", Value.str "t1", Value.str "t2", Value.str "t3",
      Value.str "t4"] ≠ [] ∧
    _extract_list_field sampleKeep "textline_orientation_angles" =
      Except.ok [Value.float 1, Value.str "1.0", Value.str "abc", Value.int 0, Value.int 1,
        Value.float 7] ∧
    ([Value.float 1, Value.str "1.0", Value.str "abc", Value.int 0, Value.int 1,
      Value.float 7] : List Value) ≠ [] ∧
    (_extract_rec_texts sampleKeep =
      Except.ok ((((strOnly [Value.str "t0", Value.str "t1", Value.str "t2", Value.str "t3",
        Value.str "t4"]).enum).filter (fun q => keptSpec [Value.float 1, Value.str "1.0",
          Value.str "abc", Value.int 0, Value.int 1, Value.float 7] q.1)).map Prod.snd) ∧
    _extract_rec_texts sampleKeep =
      Except.ok ((((strOnly [Value.str "t0", Value.str "t1", Value.str "t2", Value.str "t3",
        Value.str "t4"]).enum).filter (fun q => keptSpec (([Value.float 1, Value.str "1.0",
          Value.str "abc", Value.int 0, Value.int 1, Value.float 7] : List Value).take
            (strOnly [Value.str "t0", Value.str "t1", Value.str "t2", Value.str "t3",
              Value.str "t4"]).length) q.1)).map Prod.snd)) :=
  ⟨rfl, by decide, rfl, by simp,
    extract_rec_texts_keep_iff sampleKeep
      [Value.str "t0", Value.str "t1", Value.str "t2", Value.str "t3", Value.str "t4"]
      [Value.float 1, Value.str "1.0", Value.str "abc", Value.int 0, Value.int 1, Value.float 7]
      rfl (by decide) rfl (by simp)⟩

/-- A successful response-building pass yields one record per pair, in
order, with the pair's url as its `input_path`. -/
theorem buildRecords_ok (pairs : List (String × Value))
    (records : List (String × List String))
    (h : buildRecords pairs = Except.ok records) :
    records.map Prod.fst = pairs.map Prod.fst ∧ records.length = pairs.length := by
  induction pairs generalizing records with
  | nil =>
    injection h with h2
    subst h2
    exact ⟨rfl, rfl⟩
  | cons up rest ih =>
    obtain ⟨u, p⟩ := up
    simp only [buildRecords] at h
    cases he : _extract_rec_texts p with
    | error e => rw [he] at h; cases h
    | ok texts =>
      rw [he] at h
      cases hb : buildRecords rest with
      | error e => rw [hb] at h; cases h
      | ok rs =>
        rw [hb] at h
        injection h with h2
        subst h2
        obtain ⟨hmap, hlen⟩ := ih rs hb
        simp [hmap, hlen]

/-- Engine stub used by witnesses: one empty opaque result per input. -/
def predictEcho : List String → Except String (List Value) :=
  fun us => Except.ok (us.map (fun _ => Value.none))

/-- Engine stub used by witnesses: always exactly one result. -/
def predictOne : List String → Except String (List Value) :=
  fun _ => Except.ok [Value.none]

/-- C4: every success response of the `/ocr` handler carries exactly one
record per accepted input, in input order, each `input_path` being the
trimmed input string; and when the engine returns a number of results
different from the number of accepted inputs the whole batch surfaces as
a server error, with no output array, no partial pairing, no truncation
and no reordering. -/
theorem run_ocr_record_alignment :
    (∀ predict body records, run_ocr predict body = OcrResponse.ok records →
      ∃ us, urlsField body = some (Value.list us) ∧
        records.map Prod.fst = cleanedUrls us ∧
        records.length = (cleanedUrls us).length) ∧
    (∀ predict body us preds, urlsField body = some (Value.list us) →
      cleanedUrls us ≠ [] → predict (cleanedUrls us) = Except.ok preds →
      preds.length ≠ (cleanedUrls us).length →
      run_ocr predict body =
        OcrResponse.serverError "Mismatch between predictions and requested URLs.") := by
  constructor
  · intro predict body records h
    unfold run_ocr at h
    cases hu : urlsField body with
    | none => rw [hu] at h; cases h
    | some urls =>
      rw [hu] at h
      cases urls <;> simp only [run_ocr_core] at h <;> try cases h
      rename_i us
      refine ⟨us, rfl, ?_⟩
      by_cases hcl : (cleanedUrls us).isEmpty
      · rw [if_pos hcl] at h; cases h
      · rw [if_neg hcl] at h
        split at h
        · cases h
        · rename_i preds hp
          split at h
          · cases h
          · rename_i hlen
            split at h
            · cases h
            · rename_i rs hb
              injection h with h2
              subst h2
              obtain ⟨hmap, hlen2⟩ := buildRecords_ok _ _ hb
              push_neg at hlen
              have hle : (cleanedUrls us).length ≤ preds.length := le_of_eq hlen.symm
              constructor
              · rw [hmap, List.map_fst_zip _ _ hle]
              · rw [hlen2, List.length_zip, hlen, Nat.min_self]
  · intro predict body us preds hu hcl hp hlen
    simp [run_ocr, run_ocr_core, hu, hp, hlen, List.isEmpty_iff, hcl]

/-- C4 witness: a two-input request paired with an echoing engine (aligned
success) and with an engine that returns a single result (mismatch). -/
theorem run_ocr_record_alignment_witness :
    (run_ocr predictEcho
        (some (Value.dict [("urls", Value.list [Value.str " a ", Value.str "b"])])) =
      OcrResponse.ok [("a", []), ("b", [])] ∧
      ∃ us, urlsField
          (some (Value.dict [("urls", Value.list [Value.str " a ", Value.str "b"])])) =
          some (Value.list us) ∧
        ([("a", ([] : List String)), ("b", [])].map Prod.fst = cleanedUrls us) ∧
        ([("a", ([] : List String)), ("b", [])].length = (cleanedUrls us).length)) ∧
    run_ocr predictOne
        (some (Value.dict [("urls", Value.list [Value.str " a ", Value.str "b"])])) =
      OcrResponse.serverError "Mismatch between predictions and requested URLs." :=
  ⟨⟨by decide,
      run_ocr_record_alignment.1 predictEcho
        (some (Value.dict [("urls", Value.list [Value.str " a ", Value.str "b"])]))
        [("a", []), ("b", [])] (by decide)⟩,
    run_ocr_record_alignment.2 predictOne
      (some (Value.dict [("urls", Value.list [Value.str " a ", Value.str "b"])]))
      [Value.str " a ", Value.str "b"] [Value.none] rfl (by decide) rfl (by decide)⟩

/-- C5 counterexample: the request layer does not validate that every
entry of `urls` is a non-blank string.  A list containing a blank string
is not a `SpecValidUrls` value, yet the handler does not reject it — it
silently drops the blank entry, invokes the engine, and returns a success
response. -/
theorem run_ocr_validation_cex :
    ¬ SpecValidUrls (Value.list [Value.str "a", Value.str "  "]) ∧
    urlsField (some (Value.dict [("urls", Value.list [Value.str "a", Value.str "  "])])) =
      some (Value.list [Value.str "a", Value.str "  "]) ∧
    run_ocr predictEcho
      (some (Value.dict [("urls", Value.list [Value.str "a", Value.str "  "])])) =
      OcrResponse.ok [("a", [])] := by
  refine ⟨?_, rfl, by decide⟩
  rintro ⟨us, hus, -, hall⟩
  injection hus with h2
  subst h2
  obtain ⟨s, hs, hb⟩ := hall (Value.str "  ") (by simp)
  injection hs with h3
  subst h3
  exact hb (by decide)

/-- C5 amended: the request layer rejects with a client error (HTTP 400),
without ever invoking the engine, exactly when the `urls` field is not an
array or when no entry remains non-blank after string coercion and
trimming; entries that are blank after trimming are silently dropped and
non-string entries are coerced rather than rejected.  In particular a
non-array `urls` value and an empty `urls` list are each rejected with a
client error for every engine, so the engine is never called. -/
theorem run_ocr_validation :
    (∀ body v predict, urlsField body = some v → (∀ us, v ≠ Value.list us) →
      run_ocr predict body =
        OcrResponse.clientError "The urls field must be a JSON array of strings.") ∧
    (∀ body us predict, urlsField body = some (Value.list us) → cleanedUrls us = [] →
      run_ocr predict body = OcrResponse.clientError "The urls list must not be empty.") ∧
    (∀ body us predict d, urlsField body = some (Value.list us) → cleanedUrls us ≠ [] →
      run_ocr predict body ≠ OcrResponse.clientError d) := by
  refine ⟨?_, ?_, ?_⟩
  · intro body v predict hu hv
    unfold run_ocr
    rw [hu]
    cases v with
    | list us => exact absurd rfl (hv us)
    | _ => rfl
  · intro body us predict hu hcl
    simp [run_ocr, run_ocr_core, hu, hcl]
  · intro body us predict d hu hcl
    simp only [run_ocr, run_ocr_core, hu]
    rw [if_neg (by simpa [List.isEmpty_iff] using hcl)]
    cases hp : predict (cleanedUrls us) with
    | error e => simp
    | ok preds =>
      by_cases hlen : preds.length ≠ (cleanedUrls us).length
      · simp [hlen]
      · cases hb : buildRecords ((cleanedUrls us).zip preds) with
        | error e => simp [hlen, hb]
        | ok rs => simp [hlen, hb]

/-- C5 witness: a non-array `urls`, an all-blank `urls` list, and a valid
one-entry request that is not rejected. -/
theorem run_ocr_validation_witness :
    run_ocr predictEcho (some (Value.dict [("urls", Value.int 3)])) =
      OcrResponse.clientError "The urls field must be a JSON array of strings." ∧
    run_ocr predictEcho (some (Value.dict [("urls", Value.list [Value.str " "])])) =
      OcrResponse.clientError "The urls list must not be empty." ∧
    run_ocr predictEcho (some (Value.dict [("urls", Value.list [Value.str "a"])])) ≠
      OcrResponse.clientError "The urls list must not be empty." :=
  ⟨run_ocr_validation.1 (some (Value.dict [("urls", Value.int 3)])) (Value.int 3)
      predictEcho rfl (fun us h => Value.noConfusion h),
    run_ocr_validation.2.1 (some (Value.dict [("urls", Value.list [Value.str " "])]))
      [Value.str " "] predictEcho rfl (by decide),
    run_ocr_validation.2.2 (some (Value.dict [("urls", Value.list [Value.str "a"])]))
      [Value.str "a"] predictEcho "The urls list must not be empty." rfl (by decide)⟩
